import Mathlib

set_option maxRecDepth 100000

/-!
Verification of the eagletmt-recutils TS core (tsutils): a shallow embedding
of the packet decoder, the PAT and PMT parsers and the drop-av filter driver,
together with theorems settling the specification claims.

Byte buffers are modelled as lists of natural numbers.  A Rust slice or index
operation that can panic is modelled through Option: a returned none means the
original program panics (out-of-bounds access); it never means a Rust Err.
-/

namespace Recutils

/-- Model of a Rust suffix slice expression on a byte buffer: it yields the
bytes from position i on when i is at most the length, and panics otherwise. -/
def sliceFrom (l : List Nat) (i : Nat) : Option (List Nat) :=
  if i ≤ l.length then some (l.drop i) else none

/-- Model of a Rust range slice expression on a byte buffer: it yields the
bytes from position i up to (excluding) j when the range is well formed and
inside the buffer, and panics otherwise. -/
def sliceTo (l : List Nat) (i j : Nat) : Option (List Nat) :=
  if i ≤ j ∧ j ≤ l.length then some ((l.drop i).take (j - i)) else none

/-- Reinterpretation of a byte as a signed 8-bit integer (a Rust as-i8 cast). -/
def i8val (b : Nat) : Int :=
  if b < 128 then (b : Int) else (b : Int) - 256

/-- Lookup in the association-list model of a hash map. -/
def mapLookup {α : Type} (m : List (Nat × α)) (k : Nat) : Option α :=
  match m.find? (fun e => e.1 == k) with
  | some e => some e.2
  | none => none

/-- Insert (replacing any previous binding) in the association-list model of a
hash map. -/
def mapInsert {α : Type} (m : List (Nat × α)) (k : Nat) (v : α) : List (Nat × α) :=
  (k, v) :: m.filter (fun e => e.1 != k)

/-- Insert in the list model of a hash set. -/
def setInsert (s : List Nat) (x : Nat) : List Nat :=
  if s.contains x then s else x :: s

/-- Program clock reference, from the PCR struct of packet.rs. -/
structure PCR where
  program_clock_reference_base : Nat
  reserved : Nat
  program_clock_reference_extension : Nat
deriving DecidableEq

/-- Original program clock reference, from the OPCR struct of packet.rs. -/
structure OPCR where
  original_program_clock_reference_base : Nat
  reserved : Nat
  original_program_clock_reference_extension : Nat
deriving DecidableEq

/-- Legal time window, from the LegalTimeWindow struct of packet.rs. -/
structure LegalTimeWindow where
  ltw_valid_flag : Bool
  ltw_offset : Nat
deriving DecidableEq

/-- Seamless splice, from the SeamlessSplice struct of packet.rs. -/
structure SeamlessSplice where
  splice_type : Nat
  dts_next_au : Nat
deriving DecidableEq

/-- Adaptation field extension, from the AdaptationFieldExtension struct of
packet.rs. -/
structure AdaptationFieldExtension where
  adaptation_field_extension_length : Nat
  reserved : Nat
  ltw : Option LegalTimeWindow
  piecewise_rate : Option Nat
  seamless_splice : Option SeamlessSplice
  trailing_reserved : List Nat
deriving DecidableEq

/-- Adaptation field, from the AdaptationField struct of packet.rs. -/
structure AdaptationField where
  adaptation_field_length : Nat
  discontinuity_indicator : Bool
  random_access_indicator : Bool
  elementary_stream_priority_indicator : Bool
  transport_private_data_flag : Bool
  pcr : Option PCR
  opcr : Option OPCR
  splice_countdown : Option Int
  transport_private_data : Option (List Nat)
  adaptation_field_extension : Option AdaptationFieldExtension
deriving DecidableEq

/-- Decoded transport stream packet, from the TsPacket struct of packet.rs. -/
structure TsPacket where
  sync_byte : Nat
  transport_error_indicator : Bool
  payload_unit_start_indicator : Bool
  transport_priority : Bool
  pid : Nat
  transport_scrambling_control : Nat
  adaptation_field_control : Nat
  continuity_counter : Nat
  adaptation_field : Option AdaptationField
  data_bytes : Option (List Nat)
deriving DecidableEq

/-- PCR decode (PCR new of packet.rs): reads six bytes of the given slice. -/
def pcrNew (packet : List Nat) : Option PCR :=
  match packet.get? 0, packet.get? 1, packet.get? 2, packet.get? 3,
        packet.get? 4, packet.get? 5 with
  | some b0, some b1, some b2, some b3, some b4, some b5 =>
      some { program_clock_reference_base :=
               (b0 <<< 32) ||| (b1 <<< 24) ||| (b2 <<< 16) ||| (b3 <<< 8) ||| (b4 &&& 128)
             reserved := b4 &&& 126
             program_clock_reference_extension := ((b4 &&& 1) <<< 8) ||| b5 }
  | _, _, _, _, _, _ => none

/-- OPCR decode (OPCR new of packet.rs): reads six bytes of the given slice. -/
def opcrNew (packet : List Nat) : Option OPCR :=
  match packet.get? 0, packet.get? 1, packet.get? 2, packet.get? 3,
        packet.get? 4, packet.get? 5 with
  | some b0, some b1, some b2, some b3, some b4, some b5 =>
      some { original_program_clock_reference_base :=
               (b0 <<< 32) ||| (b1 <<< 24) ||| (b2 <<< 16) ||| (b3 <<< 8) ||| (b4 &&& 128)
             reserved := b4 &&& 126
             original_program_clock_reference_extension := ((b4 &&& 1) <<< 8) ||| b5 }
  | _, _, _, _, _, _ => none

/-- Legal time window decode (LegalTimeWindow new of packet.rs). -/
def ltwNew (packet : List Nat) : Option LegalTimeWindow :=
  match packet.get? 0, packet.get? 1 with
  | some b0, some b1 =>
      some { ltw_valid_flag := b0 &&& 128 != 0
             ltw_offset := ((b0 &&& 127) <<< 8) ||| b1 }
  | _, _ => none

/-- Seamless splice decode (SeamlessSplice new of packet.rs): reads only the
first three bytes even though its declared size is five. -/
def ssNew (packet : List Nat) : Option SeamlessSplice :=
  match packet.get? 0, packet.get? 1, packet.get? 2 with
  | some b0, some b1, some b2 =>
      some { splice_type := b0 &&& 240
             dts_next_au := (((b0 &&& 14) >>> 1) <<< 30) ||| ((b1 >>> 1) <<< 15) ||| (b2 >>> 1) }
  | _, _, _ => none

/-- Adaptation field extension decode (AdaptationFieldExtension new of
packet.rs), including the literal piecewise-rate expression of the source. -/
def afeNew (packet : List Nat) : Option AdaptationFieldExtension :=
  match packet.get? 0, packet.get? 1 with
  | some b0, some b1 =>
    let ltwFlag := b1 &&& 128 != 0
    let prFlag := b1 &&& 64 != 0
    let ssFlag := b1 &&& 32 != 0
    let step1 : Option (Option LegalTimeWindow × Nat) :=
      if ltwFlag then
        match sliceFrom packet 2 with
        | some sub =>
          match ltwNew sub with
          | some ltw => some (some ltw, 4)
          | none => none
        | none => none
      else some (none, 2)
    match step1 with
    | none => none
    | some (ltw, i1) =>
      let step2 : Option (Option Nat × Nat) :=
        if prFlag then
          match packet.get? i1, packet.get? (i1 + 1) with
          | some c0, some c1 =>
              some (some (((c0 &&& 63) <<< 16) ||| (c1 <<< 16) ||| c1), i1 + 3)
          | _, _ => none
        else some (none, i1)
      match step2 with
      | none => none
      | some (pr, i2) =>
        let step3 : Option (Option SeamlessSplice × Nat) :=
          if ssFlag then
            match sliceFrom packet i2 with
            | some sub =>
              match ssNew sub with
              | some ss => some (some ss, i2 + 5)
              | none => none
            | none => none
          else some (none, i2)
        match step3 with
        | none => none
        | some (ss, i3) =>
          match sliceFrom packet i3 with
          | some trailing =>
              some { adaptation_field_extension_length := b0
                     reserved := b1 &&& 31
                     ltw := ltw
                     piecewise_rate := pr
                     seamless_splice := ss
                     trailing_reserved := trailing }
          | none => none
  | _, _ => none

/-- Adaptation field decode (AdaptationField parse of packet.rs).  The outer
none models a panic; some none is the length-zero case in which the source
returns no adaptation field. -/
def adaptationFieldParse (packet : List Nat) : Option (Option AdaptationField) :=
  match packet.get? 0 with
  | none => none
  | some len =>
    if len = 0 then some none
    else
      match packet.get? 1 with
      | none => none
      | some flags =>
        let di := flags &&& 32 != 0
        let rai := flags &&& 16 != 0
        let espi := flags &&& 32 != 0
        let pcrFlag := flags &&& 16 != 0
        let opcrFlag := flags &&& 8 != 0
        let spliceFlag := flags &&& 4 != 0
        let tpdFlag := flags &&& 2 != 0
        let afeFlag := flags &&& 1 != 0
        let step1 : Option (Option PCR × Nat) :=
          if pcrFlag then
            match sliceFrom packet 2 with
            | some sub =>
              match pcrNew sub with
              | some pcr => some (some pcr, 8)
              | none => none
            | none => none
          else some (none, 2)
        match step1 with
        | none => none
        | some (pcr, i1) =>
          let step2 : Option (Option OPCR × Nat) :=
            if opcrFlag then
              match sliceFrom packet i1 with
              | some sub =>
                match opcrNew sub with
                | some opcr => some (some opcr, i1 + 6)
                | none => none
              | none => none
            else some (none, i1)
          match step2 with
          | none => none
          | some (opcr, i2) =>
            let step3 : Option (Option Int × Nat) :=
              if spliceFlag then
                match packet.get? i2 with
                | some b => some (some (i8val b), i2 + 1)
                | none => none
              else some (none, i2)
            match step3 with
            | none => none
            | some (sc, i3) =>
              let step4 : Option (Option (List Nat) × Nat) :=
                if tpdFlag then
                  match packet.get? i3 with
                  | some tlen =>
                    match sliceTo packet (i3 + 1) (i3 + 1 + tlen) with
                    | some data => some (some data, i3 + 1 + tlen)
                    | none => none
                  | none => none
                else some (none, i3)
              match step4 with
              | none => none
              | some (tpd, i4) =>
                let step5 : Option (Option AdaptationFieldExtension × Nat) :=
                  if afeFlag then
                    match sliceFrom packet i4 with
                    | some sub =>
                      match afeNew sub with
                      | some ext => some (some ext, i4 + ext.adaptation_field_extension_length)
                      | none => none
                    | none => none
                  else some (none, i4)
                match step5 with
                | none => none
                | some (ext, i5) =>
                  -- The stuffing-byte check slices packet from i5 to len + 1;
                  -- the bytes are only inspected for a warning, but the slice
                  -- itself panics when the range is malformed or out of bounds.
                  if i5 ≤ len + 1 ∧ len + 1 ≤ packet.length then
                    some (some
                      { adaptation_field_length := len
                        discontinuity_indicator := di
                        random_access_indicator := rai
                        elementary_stream_priority_indicator := espi
                        transport_private_data_flag := tpdFlag
                        pcr := pcr
                        opcr := opcr
                        splice_countdown := sc
                        transport_private_data := tpd
                        adaptation_field_extension := ext })
                  else none

/-- Packet decode (TsPacket new of packet.rs).  A returned none means the
source program panics on an out-of-bounds access. -/
def tsPacketNew (packet : List Nat) : Option TsPacket :=
  match packet.get? 0, packet.get? 1, packet.get? 2, packet.get? 3 with
  | some b0, some b1, some b2, some b3 =>
    let afc := (b3 &&& 48) >>> 4
    let afr : Option (Option AdaptationField × Nat) :=
      if afc = 2 ∨ afc = 3 then
        match adaptationFieldParse (packet.drop 4) with
        | none => none
        | some none => some (none, 5)
        | some (some af) => some (some af, 4 + (af.adaptation_field_length + 1))
      else some (none, 4)
    match afr with
    | none => none
    | some (af, index) =>
      let dbr : Option (Option (List Nat)) :=
        if afc = 1 ∨ afc = 3 then
          match sliceFrom packet index with
          | some s => some (some s)
          | none => none
        else some none
      match dbr with
      | none => none
      | some db =>
        some { sync_byte := b0
               transport_error_indicator := b1 &&& 128 != 0
               payload_unit_start_indicator := b1 &&& 64 != 0
               transport_priority := b1 &&& 32 != 0
               pid := ((b1 &&& 31) <<< 8) ||| b2
               transport_scrambling_control := (b3 &&& 192) >>> 6
               adaptation_field_control := afc
               continuity_counter := b3 &&& 15
               adaptation_field := af
               data_bytes := db }
  | _, _, _, _ => none

/-- PSI parse error, from the ParseError enum of psi.rs. -/
inductive ParseError where
  | incorrectTableId (expected actual : Nat)
  | incorrectSectionSyntaxIndicator
deriving DecidableEq

/-- Program association table, from the ProgramAssociationTable struct of
pat.rs; the program map is the association-list model of the hash map. -/
structure PAT where
  table_id : Nat
  transport_stream_id : Nat
  version_number : Nat
  current_next_indicator : Bool
  section_number : Nat
  last_section_number : Nat
  program_map : List (Nat × Nat)
  crc32 : Nat
deriving DecidableEq

/-- The program loop of ProgramAssociationTable parse in pat.rs: reads count
entries of four bytes each starting at the given index, skipping entries whose
program number is zero and inserting the others as pid to program number. -/
def patEntries (p : List Nat) (start : Nat) :
    Nat → List (Nat × Nat) → Option (List (Nat × Nat))
  | 0, acc => some acc
  | k + 1, acc =>
    match p.get? start, p.get? (start + 1), p.get? (start + 2), p.get? (start + 3) with
    | some a, some b, some c, some d =>
      let pn := (a <<< 8) ||| b
      let pid := ((c &&& 31) <<< 8) ||| d
      patEntries p (start + 4) k (if pn = 0 then acc else mapInsert acc pid pn)
    | _, _, _, _ => none

/-- PAT decode (ProgramAssociationTable parse of pat.rs).  The outer none
models a panic (out-of-bounds access or usize underflow of the entry-count
subtraction); the inner Except carries the two source parse errors. -/
def patParse (payload : List Nat) : Option (Except ParseError PAT) :=
  match payload.get? 0 with
  | none => none
  | some pf =>
    match sliceFrom payload (1 + pf) with
    | none => none
    | some p =>
      match p.get? 0 with
      | none => none
      | some tableId =>
        if tableId ≠ 0 then some (Except.error (ParseError.incorrectTableId 0 tableId))
        else
          match p.get? 1 with
          | none => none
          | some b1 =>
            if b1 &&& 128 = 0 then
              some (Except.error ParseError.incorrectSectionSyntaxIndicator)
            else
              match p.get? 2, p.get? 3, p.get? 4, p.get? 5, p.get? 6, p.get? 7 with
              | some b2, some b3, some b4, some b5, some b6, some b7 =>
                let secLen := ((b1 &&& 15) <<< 8) ||| b2
                if secLen < 5 then none
                else
                  let n := (secLen - 5) / 4
                  match patEntries p 8 n [] with
                  | none => none
                  | some programMap =>
                    match p.get? (8 + n * 4), p.get? (8 + n * 4 + 1),
                          p.get? (8 + n * 4 + 2), p.get? (8 + n * 4 + 3) with
                    | some c0, some c1, some c2, some c3 =>
                        some (Except.ok
                          { table_id := tableId
                            transport_stream_id := (b3 <<< 8) ||| b4
                            version_number := (b5 &&& 62) >>> 1
                            current_next_indicator := b5 &&& 1 != 0
                            section_number := b6
                            last_section_number := b7
                            program_map := programMap
                            crc32 := (c0 <<< 24) ||| (c1 <<< 16) ||| (c2 <<< 8) ||| c3 })
                    | _, _, _, _ => none
              | _, _, _, _, _, _ => none

/-- Elementary stream descriptor, from the EsInfo struct of pmt.rs. -/
structure EsInfo where
  stream_type : Nat
  elementary_pid : Nat
  descriptor : List Nat
deriving DecidableEq

/-- One elementary stream entry decode (EsInfo new of pmt.rs). -/
def esInfoNew (payload : List Nat) : Option EsInfo :=
  match payload.get? 0, payload.get? 1, payload.get? 2, payload.get? 3, payload.get? 4 with
  | some b0, some b1, some b2, some b3, some b4 =>
    let esInfoLength := ((b3 &&& 15) <<< 8) ||| b4
    match sliceTo payload 5 (5 + esInfoLength) with
    | some descriptor =>
        some { stream_type := b0
               elementary_pid := ((b1 &&& 31) <<< 8) ||| b2
               descriptor := descriptor }
    | none => none
  | _, _, _, _, _ => none

/-- Program map table, from the ProgramMapTable struct of pmt.rs. -/
structure PMT where
  table_id : Nat
  program_number : Nat
  version_number : Nat
  current_next_indicator : Bool
  section_number : Nat
  last_section_number : Nat
  pcr_pid : Nat
  program_info : List Nat
  es_info : List EsInfo
  crc32 : Nat
deriving DecidableEq

/-- The elementary stream loop of ProgramMapTable parse in pmt.rs: while the
index is below the bound, decode one entry and advance by its size.  The fuel
argument only serves termination; each iteration advances the index by at
least five, so fuel of bound plus one can never run out before the loop ends. -/
def esLoop (p : List Nat) (bound : Nat) :
    Nat → Nat → List EsInfo → Option (List EsInfo)
  | fuel, index, acc =>
    if index < bound then
      match fuel with
      | 0 => none
      | fuel + 1 =>
        match sliceFrom p index with
        | some sub =>
          match esInfoNew sub with
          | some info => esLoop p bound fuel (index + (5 + info.descriptor.length)) (acc ++ [info])
          | none => none
        | none => none
    else some acc

/-- PMT decode (ProgramMapTable parse of pmt.rs).  The outer none models a
panic; the Except carries the two source parse errors. -/
def pmtParse (payload : List Nat) : Option (Except ParseError PMT) :=
  match payload.get? 0 with
  | none => none
  | some pf =>
    match sliceFrom payload (1 + pf) with
    | none => none
    | some p =>
      match p.get? 0 with
      | none => none
      | some tableId =>
        if tableId ≠ 2 then some (Except.error (ParseError.incorrectTableId 2 tableId))
        else
          match p.get? 1 with
          | none => none
          | some b1 =>
            if b1 &&& 128 = 0 then
              some (Except.error ParseError.incorrectSectionSyntaxIndicator)
            else
              match p.get? 2, p.get? 3, p.get? 4, p.get? 5, p.get? 6, p.get? 7,
                    p.get? 8, p.get? 9, p.get? 10, p.get? 11 with
              | some b2, some b3, some b4, some b5, some b6, some b7,
                some b8, some b9, some b10, some b11 =>
                let secLen := ((b1 &&& 15) <<< 8) ||| b2
                let pil := ((b10 &&& 15) <<< 8) ||| b11
                match sliceTo p 12 (12 + pil) with
                | none => none
                | some programInfo =>
                  if 3 + secLen < 4 then none
                  else
                    let bound := 3 + secLen - 4
                    match esLoop p bound (bound + 1) (12 + pil) [] with
                    | none => none
                    | some esInfos =>
                      match p.get? bound, p.get? (bound + 1),
                            p.get? (bound + 2), p.get? (bound + 3) with
                      | some c0, some c1, some c2, some c3 =>
                          some (Except.ok
                            { table_id := tableId
                              program_number := (b3 <<< 8) ||| b4
                              version_number := (b5 &&& 62) >>> 1
                              current_next_indicator := b5 &&& 1 != 0
                              section_number := b6
                              last_section_number := b7
                              pcr_pid := ((b8 &&& 31) <<< 8) ||| b9
                              program_info := programInfo
                              es_info := esInfos
                              crc32 := (c0 <<< 24) ||| (c1 <<< 16) ||| (c2 <<< 8) ||| c3 })
                      | _, _, _, _ => none
              | _, _, _, _, _, _, _, _, _, _ => none

/-- Error values of the drop-av binary (the Error enum of tsutils-drop-av.rs;
string payloads are represented by dedicated constructors). -/
inductive DError where
  | syncByte
  | tei
  | psi (e : ParseError)
  | inconsistentProgramNumber (pid patPn pmtPn : Nat)
  | noDataBytes
deriving DecidableEq

/-- Mutable state of the drop-av loop: the latest PAT, the per-PID reassembly
buffers, the two classification sets, and the packets written so far. -/
structure DState where
  pat : Option PAT
  payloads : List (Nat × List Nat)
  av_pids : List Nat
  nonav_pids : List Nat
  output : List (List Nat)
deriving DecidableEq

/-- Result of processing one packet: a new state, a returned error, or a
panic inside one of the decoders. -/
inductive StepRes where
  | ok (s : DState)
  | err (e : DError)
  | panic
deriving DecidableEq

/-- Final outcome of a drop-av run. -/
inductive Outcome where
  | ok
  | err (e : DError)
  | panic
deriving DecidableEq

/-- The classification loop over the elementary streams of a parsed PMT
(tsutils-drop-av.rs): a PID not yet in either set goes to the audio-video set
when its stream type is 0x0f, 0x02 or 0x1b, and to the non-audio-video set
otherwise. -/
def classifyEs (av nonav : List Nat) : List EsInfo → List Nat × List Nat
  | [] => (av, nonav)
  | es :: rest =>
    if av.contains es.elementary_pid || nonav.contains es.elementary_pid then
      classifyEs av nonav rest
    else if es.stream_type = 15 ∨ es.stream_type = 2 ∨ es.stream_type = 27 then
      classifyEs (setInsert av es.elementary_pid) nonav rest
    else
      classifyEs av (setInsert nonav es.elementary_pid) rest

/-- The section-consuming phase of one drop-av iteration: when the start
indicator is set and a buffer exists for the packet PID, parse it as a PAT
(PID zero) or, when the current PAT maps the PID, as a PMT, updating the
state accordingly (lines 65 to 108 of tsutils-drop-av.rs). -/
def psiPhase (s : DState) (p : TsPacket) : StepRes :=
  if p.payload_unit_start_indicator then
    match mapLookup s.payloads p.pid with
    | some payload =>
      if p.pid = 0 then
        match patParse payload with
        | none => StepRes.panic
        | some (Except.error e) => StepRes.err (DError.psi e)
        | some (Except.ok pat) => StepRes.ok { s with pat := some pat }
      else
        match s.pat with
        | some pat =>
          match mapLookup pat.program_map p.pid with
          | some pn =>
            match pmtParse payload with
            | none => StepRes.panic
            | some (Except.error e) => StepRes.err (DError.psi e)
            | some (Except.ok pmt) =>
              if pmt.program_number ≠ pn then
                StepRes.err (DError.inconsistentProgramNumber p.pid pn pmt.program_number)
              else
                let r := classifyEs s.av_pids s.nonav_pids pmt.es_info
                StepRes.ok { s with av_pids := r.1, nonav_pids := r.2 }
          | none => StepRes.ok s
        | none => StepRes.ok s
    | none => StepRes.ok s
  else StepRes.ok s

/-- The buffer-update phase of one drop-av iteration: with the start indicator
set, the packet data bytes must exist and replace the buffer of that PID;
without it, data bytes are appended to an existing buffer or start a new one
(lines 110 to 127 of tsutils-drop-av.rs). -/
def payloadPhase (s : DState) (p : TsPacket) : StepRes :=
  if p.payload_unit_start_indicator then
    match p.data_bytes with
    | some db => StepRes.ok { s with payloads := mapInsert s.payloads p.pid db }
    | none => StepRes.err DError.noDataBytes
  else
    match p.data_bytes with
    | some db =>
      match mapLookup s.payloads p.pid with
      | some existing =>
          StepRes.ok { s with payloads := mapInsert s.payloads p.pid (existing ++ db) }
      | none => StepRes.ok { s with payloads := mapInsert s.payloads p.pid db }
    | none => StepRes.ok s

/-- The output phase of one drop-av iteration: the original buffer is written
iff the packet PID is not in the audio-video set (lines 129 to 131 of
tsutils-drop-av.rs). -/
def writePhase (s : DState) (p : TsPacket) (buf : List Nat) : DState :=
  if s.av_pids.contains p.pid then s else { s with output := s.output ++ [buf] }

/-- One iteration of the drop-av loop on one 188-byte buffer. -/
def step (s : DState) (buf : List Nat) : StepRes :=
  match tsPacketNew buf with
  | none => StepRes.panic
  | some p =>
    if p.sync_byte = 71 then
      if p.transport_error_indicator then StepRes.err DError.tei
      else
        match psiPhase s p with
        | StepRes.ok s1 =>
          match payloadPhase s1 p with
          | StepRes.ok s2 => StepRes.ok (writePhase s2 p buf)
          | StepRes.err e => StepRes.err e
          | StepRes.panic => StepRes.panic
        | StepRes.err e => StepRes.err e
        | StepRes.panic => StepRes.panic
    else StepRes.err DError.syncByte

/-- The drop-av loop over a list of 188-byte buffers: it stops at the first
error or panic, leaving the state (and hence the output written so far)
untouched by the failing iteration. -/
def run (s : DState) : List (List Nat) → DState × Outcome
  | [] => (s, Outcome.ok)
  | b :: rest =>
    match step s b with
    | StepRes.ok s1 => run s1 rest
    | StepRes.err e => (s, Outcome.err e)
    | StepRes.panic => (s, Outcome.panic)

/-- The initial drop-av state: no PAT, no buffers, empty sets, no output. -/
def initState : DState :=
  { pat := none, payloads := [], av_pids := [], nonav_pids := [], output := [] }

/-- The whole drop-av transform on a packet list. -/
def dropAv (bufs : List (List Nat)) : DState × Outcome :=
  run initState bufs

/-- The PID encoded in bytes one and two of a raw buffer. -/
def pidOf (buf : List Nat) : Nat :=
  (((buf.get? 1).getD 0 &&& 31) <<< 8) ||| (buf.get? 2).getD 0

/-- The adaptation field control encoded in byte three of a raw buffer. -/
def afcOf (buf : List Nat) : Nat :=
  ((buf.get? 3).getD 0 &&& 48) >>> 4

/-- Whether a raw buffer carries data bytes: its adaptation field control is
one or three. -/
def hasData (buf : List Nat) : Prop :=
  afcOf buf = 1 ∨ afcOf buf = 3

instance (buf : List Nat) : Decidable (hasData buf) := by
  unfold hasData; infer_instance

/-- Replay of a run recording which packets are kept: a packet is kept iff,
right after its own iteration (in particular after any classification its own
PMT section triggered), its PID is not in the audio-video set. -/
def runKept (s : DState) : List (List Nat) → List (List Nat)
  | [] => []
  | b :: rest =>
    match step s b with
    | StepRes.ok s1 =>
        (if s1.av_pids.contains (pidOf b) then [] else [b]) ++ runKept s1 rest
    | StepRes.err _ => []
    | StepRes.panic => []

/-! Helper lemmas about the embedding. -/

theorem get?_drop' (l : List Nat) (i j : Nat) :
    (l.drop i).get? j = l.get? (i + j) := by
  simp [List.get?_eq_getElem?, List.getElem?_drop]

theorem get?_some_lt {l : List Nat} {i a : Nat} (h : l.get? i = some a) :
    i < l.length := by
  rw [List.get?_eq_getElem?] at h
  exact (List.getElem?_eq_some.mp h).1

theorem get?_exists_of_lt {l : List Nat} {i : Nat} (h : i < l.length) :
    ∃ a, l.get? i = some a := by
  rw [List.get?_eq_getElem?]
  exact ⟨l[i], List.getElem?_eq_some.mpr ⟨h, rfl⟩⟩

theorem find?_filter_ne {α : Type} (m : List (Nat × α)) (k q : Nat) (hqk : q ≠ k) :
    (m.filter (fun e => e.1 != k)).find? (fun e => e.1 == q)
      = m.find? (fun e => e.1 == q) := by
  induction m with
  | nil => rfl
  | cons e rest ih =>
    by_cases hek : e.1 = k
    · have h1 : (e.1 != k) = false := by simp [hek]
      have h2 : (e.1 == q) = false := by
        simp only [beq_eq_false_iff_ne, ne_eq, hek]
        exact fun h => hqk h.symm
      simp only [List.filter, List.find?, h1, h2, ih]
    · have h1 : (e.1 != k) = true := by simp [hek]
      simp only [List.filter, h1, List.find?]
      cases h2 : (e.1 == q)
      · simp only [h2, ih]
      · simp only [h2]

theorem mapLookup_mapInsert {α : Type} (m : List (Nat × α)) (k q : Nat) (v : α) :
    (mapLookup (mapInsert m k v) q).isSome ↔ q = k ∨ (mapLookup m q).isSome := by
  by_cases hqk : q = k
  · subst hqk
    simp [mapLookup, mapInsert, List.find?]
  · have hk : (k == q) = false := by
      simp
      exact fun h => hqk h.symm
    simp only [mapLookup, mapInsert, List.find?, hk]
    rw [find?_filter_ne m k q hqk]
    constructor
    · intro h
      exact Or.inr h
    · rintro (h | h)
      · exact absurd h hqk
      · exact h

theorem setInsert_subset (s : List Nat) (x : Nat) : s ⊆ setInsert s x := by
  unfold setInsert
  split
  · exact fun a ha => ha
  · exact fun a ha => List.mem_cons_of_mem x ha

theorem classifyEs_av_mono (es : List EsInfo) :
    ∀ av nonav : List Nat, av ⊆ (classifyEs av nonav es).1 := by
  induction es with
  | nil => intro av nonav; exact fun a ha => ha
  | cons e rest ih =>
    intro av nonav
    unfold classifyEs
    split
    · exact ih av nonav
    · split
      · exact fun a ha => ih (setInsert av e.elementary_pid) nonav (setInsert_subset av e.elementary_pid ha)
      · exact ih av (setInsert nonav e.elementary_pid)

theorem tsPacketNew_fields {packet : List Nat} {p : TsPacket}
    (h : tsPacketNew packet = some p) :
    p.sync_byte = (packet.get? 0).getD 0 ∧
    p.transport_error_indicator = ((packet.get? 1).getD 0 &&& 128 != 0) ∧
    p.payload_unit_start_indicator = ((packet.get? 1).getD 0 &&& 64 != 0) ∧
    p.pid = pidOf packet ∧
    p.adaptation_field_control = afcOf packet ∧
    p.continuity_counter = ((packet.get? 3).getD 0 &&& 15) ∧
    (p.data_bytes.isSome ↔ hasData packet) := by
  unfold tsPacketNew at h
  split at h
  case _ b0 b1 b2 b3 e0 e1 e2 e3 =>
    dsimp only at h
    split at h
    · exact absurd h (by simp)
    case _ af index heq =>
      split at h
      · exact absurd h (by simp)
      case _ db heq2 =>
        cases h
        simp only [List.get?_eq_getElem?] at e0 e1 e2 e3
        refine ⟨by simp [e0], by simp [e1], by simp [e1], ?_, ?_, ?_, ?_⟩
        · simp [pidOf, List.get?_eq_getElem?, e1, e2]
        · simp [afcOf, List.get?_eq_getElem?, e3]
        · simp [e3]
        · constructor
          · intro hdb
            split at heq2
            · simp [hasData, afcOf, e3]
              assumption
            · simp at heq2
              subst heq2
              simp at hdb
          · intro hdat
            split at heq2
            case _ hc =>
              split at heq2
              · simp at heq2
                subst heq2
                simp
              · exact absurd heq2 (by simp)
            case _ hc =>
              exact absurd (by simpa [hasData, afcOf, e3] using hdat) hc
  case _ =>
    exact absurd h (by simp)

theorem psiPhase_ok {s : DState} {p : TsPacket} {s1 : DState}
    (h : psiPhase s p = StepRes.ok s1) :
    s1.output = s.output ∧ s1.payloads = s.payloads ∧ s.av_pids ⊆ s1.av_pids := by
  unfold psiPhase at h
  repeat'
    first
      | ((cases h) <;> (first
          | exact ⟨rfl, rfl, fun a ha => ha⟩
          | exact ⟨rfl, rfl, classifyEs_av_mono _ _ _⟩))
      | split at h

theorem payloadPhase_ok {s : DState} {p : TsPacket} {s2 : DState}
    (h : payloadPhase s p = StepRes.ok s2) :
    s2.output = s.output ∧ s2.av_pids = s.av_pids ∧ s2.pat = s.pat := by
  unfold payloadPhase at h
  repeat'
    first
      | ((cases h) <;> exact ⟨rfl, rfl, rfl⟩)
      | split at h

theorem payloadPhase_payloads {s : DState} {p : TsPacket} {s2 : DState}
    (h : payloadPhase s p = StepRes.ok s2) (q : Nat) :
    (mapLookup s2.payloads q).isSome ↔
      (q = p.pid ∧ p.data_bytes.isSome) ∨ (mapLookup s.payloads q).isSome := by
  unfold payloadPhase at h
  split at h
  · -- start indicator set
    split at h
    · cases h
      simp only [mapLookup_mapInsert]
      constructor
      · rintro (hq | hq)
        · exact Or.inl ⟨hq, by simp [*]⟩
        · exact Or.inr hq
      · rintro (⟨hq, _⟩ | hq)
        · exact Or.inl hq
        · exact Or.inr hq
    · cases h
  · -- start indicator clear
    split at h
    case _ db hdb =>
      split at h
      case _ existing hex =>
        cases h
        simp only [mapLookup_mapInsert]
        constructor
        · rintro (hq | hq)
          · subst hq
            exact Or.inr (by simp [mapLookup] at hex ⊢; simp [hex])
          · exact Or.inr hq
        · rintro (⟨hq, _⟩ | hq)
          · exact Or.inl hq
          · exact Or.inr hq
      case _ hex =>
        cases h
        simp only [mapLookup_mapInsert]
        constructor
        · rintro (hq | hq)
          · exact Or.inl ⟨hq, by simp [hdb]⟩
          · exact Or.inr hq
        · rintro (⟨hq, _⟩ | hq)
          · exact Or.inl hq
          · exact Or.inr hq
    case _ hdb =>
      cases h
      constructor
      · intro hq
        exact Or.inr hq
      · rintro (⟨hq, hds⟩ | hq)
        · rw [hdb] at hds
          exact absurd hds (by simp)
        · exact hq

theorem writePhase_fields (s : DState) (p : TsPacket) (buf : List Nat) :
    (writePhase s p buf).av_pids = s.av_pids ∧
    (writePhase s p buf).payloads = s.payloads ∧
    (writePhase s p buf).output
      = s.output ++ (if s.av_pids.contains p.pid then [] else [buf]) := by
  unfold writePhase
  split <;> simp_all

theorem step_ok_parts {s : DState} {buf : List Nat} {s1 : DState}
    (h : step s buf = StepRes.ok s1) :
    ∃ p sa sb, tsPacketNew buf = some p ∧ psiPhase s p = StepRes.ok sa ∧
      payloadPhase sa p = StepRes.ok sb ∧ s1 = writePhase sb p buf := by
  unfold step at h
  split at h
  · cases h
  case _ p hp =>
    split at h
    · split at h
      · cases h
      · split at h
        case _ sa ha =>
          split at h
          case _ sb hb =>
            cases h
            exact ⟨p, sa, sb, hp, ha, hb, rfl⟩
          case _ => cases h
          case _ => cases h
        case _ => cases h
        case _ => cases h
    · cases h

theorem step_ok_spec {s : DState} {buf : List Nat} {s1 : DState}
    (h : step s buf = StepRes.ok s1) :
    s1.output = s.output ++ (if s1.av_pids.contains (pidOf buf) then [] else [buf]) ∧
    s.av_pids ⊆ s1.av_pids ∧
    (∀ q, (mapLookup s1.payloads q).isSome ↔
       (q = pidOf buf ∧ hasData buf) ∨ (mapLookup s.payloads q).isSome) := by
  obtain ⟨p, sa, sb, hp, ha, hb, hw⟩ := step_ok_parts h
  obtain ⟨hao, hap, haav⟩ := psiPhase_ok ha
  obtain ⟨hbo, hbav, _⟩ := payloadPhase_ok hb
  obtain ⟨hwav, hwp, hwo⟩ := writePhase_fields sb p buf
  obtain ⟨_, _, _, hpid, _, _, hdata⟩ := tsPacketNew_fields hp
  subst hw
  refine ⟨?_, ?_, ?_⟩
  · rw [hwo, hbo, hao, hwav, hbav, hpid]
  · intro a haa
    rw [hwav, hbav]
    exact haav haa
  · intro q
    rw [hwp]
    rw [payloadPhase_payloads hb q]
    rw [hap, hpid, hdata]

theorem run_av_mono {bufs : List (List Nat)} :
    ∀ {s : DState}, s.av_pids ⊆ (run s bufs).1.av_pids := by
  induction bufs with
  | nil => intro s; exact fun a ha => ha
  | cons b rest ih =>
    intro s
    unfold run
    split
    case _ s1 h1 =>
      exact fun a ha => ih ((step_ok_spec h1).2.1 ha)
    case _ e h1 => exact fun a ha => ha
    case _ h1 => exact fun a ha => ha

theorem contains_iff (s : List Nat) (x : Nat) : s.contains x = true ↔ x ∈ s := by
  simp [List.contains]

theorem run_ok_output {bufs : List (List Nat)} :
    ∀ {s sf : DState}, run s bufs = (sf, Outcome.ok) →
      sf.output = s.output ++ runKept s bufs := by
  induction bufs with
  | nil =>
    intro s sf h
    unfold run at h
    cases h
    simp [runKept]
  | cons b rest ih =>
    intro s sf h
    unfold run at h
    split at h
    case _ s1 h1 =>
      have hk : runKept s (b :: rest)
          = (if s1.av_pids.contains (pidOf b) then [] else [b]) ++ runKept s1 rest := by
        simp only [runKept]
        rw [h1]
      rw [hk, ih h, (step_ok_spec h1).1, List.append_assoc]
    case _ e h1 =>
      exact absurd (congrArg Prod.snd h) (by simp)
    case _ h1 =>
      exact absurd (congrArg Prod.snd h) (by simp)

theorem runKept_sublist {bufs : List (List Nat)} :
    ∀ {s : DState}, List.Sublist (runKept s bufs) bufs := by
  induction bufs with
  | nil => intro s; exact List.Sublist.refl []
  | cons b rest ih =>
    intro s
    unfold runKept
    split
    case _ s1 h1 =>
      split
      · exact List.Sublist.trans (by simp [ih]) (List.sublist_cons_self b rest)
      · exact List.Sublist.cons₂ b ih
    case _ => exact List.nil_sublist (b :: rest)
    case _ => exact List.nil_sublist (b :: rest)

theorem filter_nonav_sublist_runKept {bufs : List (List Nat)} :
    ∀ {s sf : DState}, run s bufs = (sf, Outcome.ok) →
      List.Sublist (bufs.filter (fun b => !sf.av_pids.contains (pidOf b)))
        (runKept s bufs) := by
  induction bufs with
  | nil => intro s sf h; simp
  | cons b rest ih =>
    intro s sf h
    unfold run at h
    split at h
    case _ s1 h1 =>
      have hsub : s1.av_pids ⊆ sf.av_pids := by
        have := @run_av_mono rest s1
        rw [h] at this
        exact this
      unfold runKept
      rw [h1]
      by_cases hin : sf.av_pids.contains (pidOf b) = true
      · rw [List.filter_cons]
        simp only [hin, Bool.not_true, if_neg (by simp : ¬ (false = true))]
        refine List.Sublist.trans (ih h) ?_
        split
        · simp
        · exact List.sublist_cons_self b (runKept s1 rest)
      · have hnotin1 : s1.av_pids.contains (pidOf b) = false := by
          rw [Bool.eq_false_iff]
          intro hc
          exact hin ((contains_iff sf.av_pids (pidOf b)).mpr (hsub ((contains_iff s1.av_pids (pidOf b)).mp hc)))
        rw [List.filter_cons]
        simp only [hin, Bool.not_false, hnotin1]
        simp only [if_neg (by simp : ¬ (false = true)), if_pos rfl]
        exact List.Sublist.cons₂ b (ih h)
    case _ e h1 =>
      exact absurd (congrArg Prod.snd h) (by simp)
    case _ h1 =>
      exact absurd (congrArg Prod.snd h) (by simp)

theorem run_payloads {bufs : List (List Nat)} :
    ∀ {s sf : DState}, run s bufs = (sf, Outcome.ok) →
      ∀ q, (mapLookup sf.payloads q).isSome ↔
        (∃ b ∈ bufs, pidOf b = q ∧ hasData b) ∨ (mapLookup s.payloads q).isSome := by
  induction bufs with
  | nil =>
    intro s sf h q
    unfold run at h
    cases h
    simp
  | cons b rest ih =>
    intro s sf h q
    unfold run at h
    split at h
    case _ s1 h1 =>
      rw [ih h q]
      rw [(step_ok_spec h1).2.2 q]
      simp only [List.mem_cons]
      constructor
      · rintro (⟨x, hx, hpx⟩ | (hb | hold))
        · exact Or.inl ⟨x, Or.inr hx, hpx⟩
        · exact Or.inl ⟨b, Or.inl rfl, hb.1.symm, hb.2⟩
        · exact Or.inr hold
      · rintro (⟨x, hx | hx, hpx⟩ | hold)
        · subst hx
          exact Or.inr (Or.inl ⟨hpx.1.symm, hpx.2⟩)
        · exact Or.inl ⟨x, hx, hpx⟩
        · exact Or.inr (Or.inr hold)
    case _ e h1 =>
      exact absurd (congrArg Prod.snd h) (by simp)
    case _ h1 =>
      exact absurd (congrArg Prod.snd h) (by simp)

/-- True exactly when a drop-av outcome is a returned error. -/
def isErr : Outcome → Bool
  | Outcome.err _ => true
  | _ => false

/-! Concrete inputs used by witnesses and counterexamples. -/

/-- A 188-byte null packet: sync byte 0x47, PID 0x1fff, adaptation field
control 1, payload of stuffing bytes. -/
def nullPkt : List Nat := [0x47, 0x1F, 0xFF, 0x10] ++ List.replicate 184 0xFF

/-- The decoded form of the null packet. -/
def nullPktDecoded : TsPacket :=
  { sync_byte := 0x47, transport_error_indicator := false,
    payload_unit_start_indicator := false, transport_priority := false,
    pid := 0x1FFF, transport_scrambling_control := 0,
    adaptation_field_control := 1, continuity_counter := 0,
    adaptation_field := none, data_bytes := some (List.replicate 184 0xFF) }

/-- The drop-av state after processing the null packet alone. -/
def nullFinalState : DState :=
  { pat := none, payloads := [(0x1FFF, List.replicate 184 0xFF)],
    av_pids := [], nonav_pids := [], output := [nullPkt] }

/-- A 188-byte packet with adaptation field control 2 whose adaptation field
length byte is 255: the stuffing-byte slice runs past the 184-byte region. -/
def c3buf : List Nat := [0x47, 0x00, 0x00, 0x20, 0xFF, 0x00] ++ List.replicate 182 0xFF

/-- A 188-byte packet with adaptation field control 2 and adaptation field
length zero. -/
def c6buf : List Nat := [0x47, 0x00, 0x00, 0x20, 0x00] ++ List.replicate 183 0xFF

/-- A 188-byte packet with adaptation field control 3, adaptation field
length 1 and flags byte 0xC0 (bits 7 and 6 set). -/
def c5buf : List Nat := [0x47, 0x00, 0x00, 0x30, 0x01, 0xC0] ++ List.replicate 182 0xFF

/-- Input bytes of an adaptation field extension with only the piecewise-rate
flag set, followed by rate bytes 0x00 0x01 0x02. -/
def c7bytes : List Nat := [0x05, 0x40, 0x00, 0x01, 0x02, 0xFF, 0xFF]

/-- A PAT section payload (pointer field 0) with section length 13: one
program entry mapping program 1 to PID 0x0100, a CRC of 0x01020304, then
stuffing bytes. -/
def c2payload : List Nat :=
  [0x00, 0x00, 0xB0, 0x0D, 0x00, 0x01, 0xC1, 0x00, 0x00,
   0x00, 0x01, 0xE1, 0x00, 0x01, 0x02, 0x03, 0x04] ++ List.replicate 4 0xFF

/-- A PMT section payload (pointer field 0) with program number 2, empty
descriptor loops and CRC 0x01020304. -/
def c9pmtPayload : List Nat :=
  [0x00, 0x02, 0xB0, 0x0D, 0x00, 0x02, 0xC1, 0x00, 0x00, 0xE0, 0x00, 0xF0, 0x00,
   0x01, 0x02, 0x03, 0x04]

/-- The decoded form of the PMT section payload above. -/
def c9pmt : PMT :=
  { table_id := 2, program_number := 2, version_number := 0,
    current_next_indicator := true, section_number := 0, last_section_number := 0,
    pcr_pid := 0, program_info := [], es_info := [], crc32 := 0x01020304 }

/-- A PAT mapping PID 0x0100 to program number 1. -/
def c9pat : PAT :=
  { table_id := 0, transport_stream_id := 1, version_number := 0,
    current_next_indicator := true, section_number := 0, last_section_number := 0,
    program_map := [(0x0100, 1)], crc32 := 0 }

/-- A drop-av state holding the PAT above and a completed section buffered
for PID 0x0100. -/
def c9state : DState :=
  { pat := some c9pat, payloads := [(0x0100, c9pmtPayload)],
    av_pids := [], nonav_pids := [], output := [] }

/-- A 188-byte packet on PID 0x0100 with the start indicator set and
adaptation field control 1. -/
def c9buf : List Nat := [0x47, 0x41, 0x00, 0x10] ++ List.replicate 184 0xFF

/-- The decoded form of the packet above. -/
def c9pkt : TsPacket :=
  { sync_byte := 0x47, transport_error_indicator := false,
    payload_unit_start_indicator := true, transport_priority := false,
    pid := 0x0100, transport_scrambling_control := 0,
    adaptation_field_control := 1, continuity_counter := 0,
    adaptation_field := none, data_bytes := some (List.replicate 184 0xFF) }

/-- A 188-byte packet with the start indicator set, adaptation field control
2 and adaptation field length 255 (so decoding panics). -/
def c10buf : List Nat := [0x47, 0x40, 0x42, 0x20, 0xFF, 0x00] ++ List.replicate 182 0xFF

/-- A 188-byte packet with the start indicator set and adaptation field
control 0 (no adaptation field, no data bytes). -/
def c10wbuf : List Nat := [0x47, 0x40, 0x42, 0x00] ++ List.replicate 184 0xFF

/-- The decoded form of the packet above. -/
def c10wpkt : TsPacket :=
  { sync_byte := 0x47, transport_error_indicator := false,
    payload_unit_start_indicator := true, transport_priority := false,
    pid := 0x42, transport_scrambling_control := 0,
    adaptation_field_control := 0, continuity_counter := 0,
    adaptation_field := none, data_bytes := none }

/-- Claim C2 (code bug): on a PAT section with exactly one program entry and
section length 13, the parser reads two program-loop entries instead of one:
the CRC bytes 0x01 0x02 0x03 0x04 are decoded as a bogus entry mapping PID
0x0304 to program 0x0102, and the crc32 field is read from the stuffing
bytes past the section end, yielding 0xFFFFFFFF instead of 0x01020304. -/
theorem claim_C2_code_bug :
    patParse c2payload = some (Except.ok
      { table_id := 0, transport_stream_id := 1, version_number := 0,
        current_next_indicator := true, section_number := 0, last_section_number := 0,
        program_map := [(0x0304, 0x0102), (0x0100, 0x0001)], crc32 := 0xFFFFFFFF }) ∧
    mapLookup [((0x0304 : Nat), (0x0102 : Nat)), (0x0100, 0x0001)] 0x0304 = some 0x0102 ∧
    ((0x0D - 5 - 4) / 4 = 1 ∧ (0x0D - 5) / 4 = 2) ∧
    (0xFFFFFFFF : Nat) ≠ 0x01020304 := by
  exact ⟨rfl, rfl, by decide, by decide⟩

/-- Claim C5 (code bug): on an adaptation field whose flags byte is 0xC0
(bits 7 and 6 set), the decoder returns false for both the discontinuity and
the random access indicators, because the source masks them with bits 5 and
4 instead of bits 7 and 6. -/
theorem claim_C5_code_bug :
    c5buf.get? 5 = some 0xC0 ∧
    ((0xC0 : Nat) &&& 0x80 ≠ 0) ∧ ((0xC0 : Nat) &&& 0x40 ≠ 0) ∧
    ((tsPacketNew c5buf).bind (fun p => p.adaptation_field)).map
      (fun af => (af.discontinuity_indicator, af.random_access_indicator,
                  af.elementary_stream_priority_indicator))
      = some (false, false, false) := by
  exact ⟨rfl, by decide, by decide, rfl⟩

/-- Claim C7 (code bug): with the piecewise-rate flag set and rate bytes
0x00 0x01 0x02, the decoder yields 0x10001 (it ors byte one shifted by 16
with byte one unshifted and never reads byte two), not the 22-bit value
0x102 required by the correct layout. -/
theorem claim_C7_code_bug :
    (afeNew c7bytes).map (fun e => e.piecewise_rate) = some (some 0x10001) ∧
    ((((0x00 &&& 0x3F) <<< 16) ||| (0x01 <<< 8) ||| 0x02 : Nat) = 0x102) ∧
    (0x10001 : Nat) ≠ 0x102 := by
  exact ⟨rfl, by decide, by decide⟩

/-- Claim C3 counterexample: a 188-byte buffer (adaptation field control 2,
adaptation field length byte 255) on which the decoder's stuffing-byte slice
exceeds the buffer, so decoding panics instead of returning a packet. -/
theorem claim_C3_counterexample :
    c3buf.length = 188 ∧ tsPacketNew c3buf = none := by
  exact ⟨rfl, rfl⟩

/-- Claim C4 counterexample: after running drop-av on the single null packet
(PID 0x1fff), a reassembly buffer exists for PID 0x1fff even though no PAT
was ever parsed, so the buffer domain is not contained in the PAT PID plus
the discovered PMT PIDs. -/
theorem claim_C4_counterexample :
    (dropAv [nullPkt]).2 = Outcome.ok ∧
    ((dropAv [nullPkt]).1).pat = none ∧
    (mapLookup ((dropAv [nullPkt]).1).payloads 0x1FFF).isSome = true ∧
    (0x1FFF : Nat) ≠ 0 := by
  exact ⟨rfl, rfl, rfl, by decide⟩

/-- Claim C6 counterexample: a 188-byte buffer with adaptation field control
2 whose adaptation field length byte is zero decodes to a packet whose
adaptation field component is absent, against the claimed presence for every
control in two or three. -/
theorem claim_C6_counterexample :
    c6buf.length = 188 ∧
    afcOf c6buf = 2 ∧
    (tsPacketNew c6buf).map (fun p => p.adaptation_field.isSome) = some false := by
  exact ⟨rfl, rfl, rfl⟩

/-- Claim C10 counterexample: a packet with the start indicator set and no
data bytes (adaptation field control 2) whose adaptation field is malformed
makes drop-av panic inside the decoder rather than return an error. -/
theorem claim_C10_counterexample :
    c10buf.length = 188 ∧
    ((c10buf.get? 1).getD 0 &&& 0x40 ≠ 0) ∧
    afcOf c10buf = 2 ∧
    dropAv [c10buf] = (initState, Outcome.panic) ∧
    isErr (dropAv [c10buf]).2 = false := by
  exact ⟨rfl, by decide, rfl, rfl, rfl⟩

/-- Claim C1 (confirmed): in a successful drop-av run, the output is exactly
the packets whose PID is not in the audio-video set at the moment the packet
is processed (the replay runKept records that per-packet test); consequently
no packet whose PID was classified by its processing time appears, the output
is a subsequence of the input (order preserved), and every packet whose PID
is never classified audio-video throughout the run appears in the output. -/
theorem claim_C1 (bufs : List (List Nat)) (sf : DState)
    (h : dropAv bufs = (sf, Outcome.ok)) :
    sf.output = runKept initState bufs ∧
    List.Sublist sf.output bufs ∧
    List.Sublist (bufs.filter (fun b => !sf.av_pids.contains (pidOf b))) sf.output := by
  have h1 : sf.output = initState.output ++ runKept initState bufs := run_ok_output h
  have h2 : sf.output = runKept initState bufs := by simpa [initState] using h1
  refine ⟨h2, ?_, ?_⟩
  · rw [h2]
    exact runKept_sublist
  · rw [h2]
    exact filter_nonav_sublist_runKept h

/-- Witness for claim C1 at the single null packet. -/
theorem claim_C1_witness :
    dropAv [nullPkt] = (nullFinalState, Outcome.ok) ∧
    (nullFinalState.output = runKept initState [nullPkt] ∧
     List.Sublist nullFinalState.output [nullPkt] ∧
     List.Sublist ([nullPkt].filter (fun b => !nullFinalState.av_pids.contains (pidOf b)))
       nullFinalState.output) := by
  exact ⟨by rfl, claim_C1 [nullPkt] nullFinalState (by rfl)⟩

/-- Claim C4, amended (corrected): drop-av keeps a reassembly buffer for
every PID that has carried data bytes, not only for the PAT PID and the
discovered PMT PIDs: after a successful run, a buffer exists for a PID
exactly when some input packet with that PID had data bytes. -/
theorem claim_C4_amended (bufs : List (List Nat)) (sf : DState)
    (h : dropAv bufs = (sf, Outcome.ok)) (q : Nat) :
    (mapLookup sf.payloads q).isSome ↔ ∃ b ∈ bufs, pidOf b = q ∧ hasData b := by
  have h1 := run_payloads h q
  have h2 : (mapLookup initState.payloads q).isSome = false := by
    simp [initState, mapLookup, List.find?]
  rw [h2] at h1
  simpa using h1

/-- Witness for claim C4 at the single null packet and PID 0x1fff. -/
theorem claim_C4_witness :
    dropAv [nullPkt] = (nullFinalState, Outcome.ok) ∧
    ((mapLookup nullFinalState.payloads 0x1FFF).isSome ↔
      ∃ b ∈ [nullPkt], pidOf b = 0x1FFF ∧ hasData b) := by
  exact ⟨by rfl, claim_C4_amended [nullPkt] nullFinalState (by rfl) 0x1FFF⟩

/-- Claim C8 (confirmed): for 188-byte inputs with sync byte 0x47 that
decode, the PID is bits 4 to 0 of byte one shifted left eight ored with byte
two, and the continuity counter is the low four bits of byte three. -/
theorem claim_C8 (buf : List Nat) (p : TsPacket) (hlen : buf.length = 188)
    (hp : tsPacketNew buf = some p) (hsync : p.sync_byte = 0x47) :
    p.pid = (((buf.get? 1).getD 0 &&& 0x1F) <<< 8) ||| (buf.get? 2).getD 0 ∧
    p.continuity_counter = ((buf.get? 3).getD 0 &&& 0x0F) := by
  obtain ⟨_, _, _, hpid, _, hcc, _⟩ := tsPacketNew_fields hp
  exact ⟨hpid, hcc⟩

/-- Witness for claim C8 at the null packet. -/
theorem claim_C8_witness :
    nullPkt.length = 188 ∧
    tsPacketNew nullPkt = some nullPktDecoded ∧
    nullPktDecoded.sync_byte = 0x47 ∧
    (nullPktDecoded.pid = (((nullPkt.get? 1).getD 0 &&& 0x1F) <<< 8) ||| (nullPkt.get? 2).getD 0 ∧
     nullPktDecoded.continuity_counter = ((nullPkt.get? 3).getD 0 &&& 0x0F)) := by
  exact ⟨by rfl, by rfl, by rfl,
    claim_C8 nullPkt nullPktDecoded (by rfl) (by rfl) (by rfl)⟩

/-- Claim C9 (confirmed): when a packet with the start indicator completes a
buffered section on a PID that the current PAT maps to program number pn, and
that section parses as a PMT whose program number differs from pn, the step
returns the inconsistent-program-number error, and the run stops there: the
state, in particular the output already written, is left exactly as it was
and no further packet is processed. -/
theorem claim_C9 (s : DState) (buf : List Nat) (p : TsPacket) (payload : List Nat)
    (pat : PAT) (pn : Nat) (pmt : PMT)
    (hp : tsPacketNew buf = some p)
    (hsync : p.sync_byte = 0x47)
    (htei : p.transport_error_indicator = false)
    (hpusi : p.payload_unit_start_indicator = true)
    (hpid : ¬ p.pid = 0)
    (hbuf : mapLookup s.payloads p.pid = some payload)
    (hpat : s.pat = some pat)
    (hmap : mapLookup pat.program_map p.pid = some pn)
    (hpmt : pmtParse payload = some (Except.ok pmt))
    (hne : pmt.program_number ≠ pn) :
    step s buf = StepRes.err (DError.inconsistentProgramNumber p.pid pn pmt.program_number) ∧
    ∀ rest, run s (buf :: rest)
      = (s, Outcome.err (DError.inconsistentProgramNumber p.pid pn pmt.program_number)) := by
  have hpsi : psiPhase s p
      = StepRes.err (DError.inconsistentProgramNumber p.pid pn pmt.program_number) := by
    unfold psiPhase
    simp [hpusi, hbuf, hpat, hmap, hpmt, hpid, hne]
  have hstep : step s buf
      = StepRes.err (DError.inconsistentProgramNumber p.pid pn pmt.program_number) := by
    unfold step
    simp [hp, hsync, htei, hpsi]
  refine ⟨hstep, ?_⟩
  intro rest
  unfold run
  rw [hstep]

/-- Witness for claim C9: a state with a PAT mapping PID 0x0100 to program 1
and a buffered PMT section declaring program 2, hit by a start-indicator
packet on PID 0x0100. -/
theorem claim_C9_witness :
    step c9state c9buf = StepRes.err (DError.inconsistentProgramNumber 0x0100 1 2) ∧
    run c9state [c9buf] = (c9state, Outcome.err (DError.inconsistentProgramNumber 0x0100 1 2)) := by
  have h := claim_C9 c9state c9buf c9pkt c9pmtPayload c9pat 1 c9pmt
    (by rfl) (by rfl) (by rfl) (by rfl) (by decide) (by rfl) (by rfl) (by rfl) (by rfl) (by decide)
  exact ⟨h.1, h.2 []⟩

/-- Claim C10, amended (corrected): a packet that decodes, has the start
indicator set and carries no data bytes makes the transform fail at that
packet regardless of its PID: the step is never a normal continuation, and
the run stops there with the state unchanged and a non-ok outcome.  (The
failure is an error except when a buffered section on that PID makes the PSI
parser panic first; the unamended claim that an error is always returned is
refuted by the panic counterexample.) -/
theorem claim_C10_amended (s : DState) (buf : List Nat) (p : TsPacket)
    (hp : tsPacketNew buf = some p)
    (hpusi : p.payload_unit_start_indicator = true)
    (hdb : p.data_bytes = none) :
    (∀ s1, ¬ step s buf = StepRes.ok s1) ∧
    ∀ rest, (run s (buf :: rest)).1 = s ∧ ¬ (run s (buf :: rest)).2 = Outcome.ok := by
  have hnotok : ∀ s1, ¬ step s buf = StepRes.ok s1 := by
    intro s1 hstep
    obtain ⟨p2, sa, sb, hp2, _, hb, _⟩ := step_ok_parts hstep
    rw [hp] at hp2
    cases hp2
    unfold payloadPhase at hb
    rw [hpusi, hdb] at hb
    simp at hb
  refine ⟨hnotok, ?_⟩
  intro rest
  unfold run
  cases hstep : step s buf with
  | ok s1 => exact absurd hstep (hnotok s1)
  | err e => exact ⟨rfl, by simp⟩
  | panic => exact ⟨rfl, by simp⟩

/-- Witness for claim C10 at a start-indicator packet with adaptation field
control 0 on PID 0x42 from the initial state. -/
theorem claim_C10_witness :
    (∀ s1, ¬ step initState c10wbuf = StepRes.ok s1) ∧
    ((run initState [c10wbuf]).1 = initState ∧
     ¬ (run initState [c10wbuf]).2 = Outcome.ok) := by
  have h := claim_C10_amended initState c10wbuf c10wpkt (by rfl) (by rfl) (by rfl)
  exact ⟨h.1, h.2 []⟩

theorem afp_some_none {l : List Nat} (h : adaptationFieldParse l = some none) :
    l.get? 0 = some 0 := by
  unfold adaptationFieldParse at h
  split at h
  · cases h
  case _ len e =>
    split at h
    case isTrue h0 => rw [e, h0]
    case isFalse h0 =>
      dsimp only at h
      repeat'
        first
          | (cases h)
          | split at h

theorem afp_some_some_ne_zero {l : List Nat} {af : AdaptationField}
    (h : adaptationFieldParse l = some (some af)) : ¬ l.get? 0 = some 0 := by
  intro hc
  unfold adaptationFieldParse at h
  rw [hc] at h
  simp at h

/-- Claim C3, amended (corrected): decoding a 188-byte buffer cannot fail
when no adaptation field is present (adaptation field control 0 or 1); with
an adaptation field present, the declared lengths can push reads past the
buffer and the decoder panics, as the counterexample shows. -/
theorem claim_C3_amended (buf : List Nat) (hlen : buf.length = 188)
    (hafc : afcOf buf = 0 ∨ afcOf buf = 1) :
    (tsPacketNew buf).isSome = true := by
  obtain ⟨b0, e0⟩ := get?_exists_of_lt (l := buf) (i := 0) (by omega)
  obtain ⟨b1, e1⟩ := get?_exists_of_lt (l := buf) (i := 1) (by omega)
  obtain ⟨b2, e2⟩ := get?_exists_of_lt (l := buf) (i := 2) (by omega)
  obtain ⟨b3, e3⟩ := get?_exists_of_lt (l := buf) (i := 3) (by omega)
  have ha : afcOf buf = (b3 &&& 48) >>> 4 := by
    unfold afcOf
    rw [e3]
    rfl
  rw [ha] at hafc
  have hno23 : ¬ ((b3 &&& 48) >>> 4 = 2 ∨ (b3 &&& 48) >>> 4 = 3) := by omega
  have hslice : sliceFrom buf 4 = some (buf.drop 4) := by
    unfold sliceFrom
    rw [if_pos (by omega)]
  simp only [tsPacketNew, e0, e1, e2, e3, if_neg hno23]
  by_cases h13 : (b3 &&& 48) >>> 4 = 1 ∨ (b3 &&& 48) >>> 4 = 3
  · simp only [if_pos h13, hslice]
    rfl
  · simp only [if_neg h13]
    rfl

/-- Witness for claim C3 at the null packet (adaptation field control 1). -/
theorem claim_C3_witness :
    (tsPacketNew nullPkt).isSome = true := by
  exact claim_C3_amended nullPkt (by rfl) (Or.inr (by rfl))

/-- Claim C6, amended (corrected): in a decoded packet the adaptation field
component is present iff the adaptation field control is 2 or 3 AND the
length byte at offset 4 is nonzero; when the control is 3 and that byte is
zero the field is absent and the data bytes start after exactly one length
byte, at offset 5. -/
theorem claim_C6_amended (buf : List Nat) (p : TsPacket) (hlen : buf.length = 188)
    (hp : tsPacketNew buf = some p) :
    (p.adaptation_field.isSome ↔
      ((afcOf buf = 2 ∨ afcOf buf = 3) ∧ ¬ buf.get? 4 = some 0)) ∧
    ((afcOf buf = 3 ∧ buf.get? 4 = some 0) → p.data_bytes = some (buf.drop 5)) := by
  obtain ⟨b0, e0⟩ := get?_exists_of_lt (l := buf) (i := 0) (by omega)
  obtain ⟨b1, e1⟩ := get?_exists_of_lt (l := buf) (i := 1) (by omega)
  obtain ⟨b2, e2⟩ := get?_exists_of_lt (l := buf) (i := 2) (by omega)
  obtain ⟨b3, e3⟩ := get?_exists_of_lt (l := buf) (i := 3) (by omega)
  have ha : afcOf buf = (b3 &&& 48) >>> 4 := by
    unfold afcOf
    rw [e3]
    rfl
  have hd : (buf.drop 4).get? 0 = buf.get? 4 := by
    rw [get?_drop']
  rw [ha]
  simp only [tsPacketNew, e0, e1, e2, e3] at hp
  by_cases h23 : (b3 &&& 48) >>> 4 = 2 ∨ (b3 &&& 48) >>> 4 = 3
  · rw [if_pos h23] at hp
    cases hparse : adaptationFieldParse (buf.drop 4) with
    | none =>
      rw [hparse] at hp
      simp at hp
    | some oaf =>
      cases oaf with
      | none =>
        rw [hparse] at hp
        dsimp only at hp
        have h40 : buf.get? 4 = some 0 := by
          rw [← hd]
          exact afp_some_none hparse
        by_cases h13 : (b3 &&& 48) >>> 4 = 1 ∨ (b3 &&& 48) >>> 4 = 3
        · have hslice : sliceFrom buf 5 = some (buf.drop 5) := by
            unfold sliceFrom
            rw [if_pos (by omega)]
          rw [if_pos h13, hslice] at hp
          dsimp only at hp
          cases hp
          refine ⟨by rw [List.get?_eq_getElem?] at h40; simp [h40], fun _ => rfl⟩
        · rw [if_neg h13] at hp
          dsimp only at hp
          cases hp
          refine ⟨by rw [List.get?_eq_getElem?] at h40; simp [h40], ?_⟩
          rintro ⟨h3, _⟩
          exact absurd (Or.inr h3) h13
      | some af =>
        rw [hparse] at hp
        dsimp only at hp
        have h40 : ¬ buf.get? 4 = some 0 := by
          rw [← hd]
          exact afp_some_some_ne_zero hparse
        by_cases h13 : (b3 &&& 48) >>> 4 = 1 ∨ (b3 &&& 48) >>> 4 = 3
        · rw [if_pos h13] at hp
          cases hslice : sliceFrom buf (4 + (af.adaptation_field_length + 1)) with
          | none =>
            rw [hslice] at hp
            simp at hp
          | some s =>
            rw [hslice] at hp
            dsimp only at hp
            cases hp
            refine ⟨by rw [List.get?_eq_getElem?] at h40; simp [h23, h40], ?_⟩
            rintro ⟨_, h0⟩
            exact absurd h0 h40
        · rw [if_neg h13] at hp
          dsimp only at hp
          cases hp
          refine ⟨by rw [List.get?_eq_getElem?] at h40; simp [h23, h40], ?_⟩
          rintro ⟨_, h0⟩
          exact absurd h0 h40
  · rw [if_neg h23] at hp
    dsimp only at hp
    by_cases h13 : (b3 &&& 48) >>> 4 = 1 ∨ (b3 &&& 48) >>> 4 = 3
    · have hslice : sliceFrom buf 4 = some (buf.drop 4) := by
        unfold sliceFrom
        rw [if_pos (by omega)]
      rw [if_pos h13, hslice] at hp
      dsimp only at hp
      cases hp
      refine ⟨by simp [h23], ?_⟩
      rintro ⟨h3, _⟩
      exact absurd (Or.inr h3) h23
    · rw [if_neg h13] at hp
      dsimp only at hp
      cases hp
      refine ⟨by simp [h23], ?_⟩
      rintro ⟨h3, _⟩
      exact absurd (Or.inr h3) h23

/-- A 188-byte packet with adaptation field control 3 and adaptation field
length byte zero, used as the claim C6 witness input. -/
def c6wbuf : List Nat := [0x47, 0x00, 0x00, 0x30, 0x00] ++ List.replicate 183 0xAA

/-- The decoded form of the witness packet above. -/
def c6wpkt : TsPacket :=
  { sync_byte := 0x47, transport_error_indicator := false,
    payload_unit_start_indicator := false, transport_priority := false,
    pid := 0, transport_scrambling_control := 0,
    adaptation_field_control := 3, continuity_counter := 0,
    adaptation_field := none,
    data_bytes := some (List.replicate 183 0xAA) }

/-- Witness for claim C6 at a packet with adaptation field control 3 and a
zero adaptation field length byte. -/
theorem claim_C6_witness :
    (c6wpkt.adaptation_field.isSome ↔
      ((afcOf c6wbuf = 2 ∨ afcOf c6wbuf = 3) ∧ ¬ c6wbuf.get? 4 = some 0)) ∧
    ((afcOf c6wbuf = 3 ∧ c6wbuf.get? 4 = some 0) → c6wpkt.data_bytes = some (c6wbuf.drop 5)) := by
  exact claim_C6_amended c6wbuf c6wpkt (by rfl) (by rfl)

end Recutils
